import Mathlib

/-!
Shallow embedding of the Foundry MCP server (`src/index.ts`).  The file in the
repository contains two near-duplicate revisions of the server concatenated;
this development embeds the later revision (the one starting around line 780),
which is the revision every claim cites.

Effectful interactions (subprocess execution, filesystem reads, the process
table, environment variables) are modelled by passing their outcomes in
explicitly.  Each tool handler is a pure function from its arguments and those
outcomes to the MCP response it produces, paired with the list of shell
command strings that the handler body hands to the operating system (its
subprocess trace).  The probe run inside `checkFoundryInstalled`
(`forge --version`) is not part of a handler's trace: the trace records the
commands issued by the handler body after that check.
-/

namespace FoundryMcp

/-- Outcome of one `child_process.exec` invocation, as observed through
`promisify(exec)`: the promise either resolves with the captured stdout and
stderr (the process exited zero) or rejects with an error message (non-zero
exit, binary missing, permission denied, ...). -/
inductive ExecOutcome where
  | ok (stdout stderr : String)
  | err (message : String)
deriving DecidableEq

/-- The record returned by `executeCommand` in the source:
`{ success: boolean, message: string }`. -/
structure CommandResult where
  success : Bool
  message : String
deriving DecidableEq

/-- `executeCommand` (src/index.ts:867-878).  On a resolved exec promise it
inspects `if (stderr && !stdout)` — in JavaScript a string is truthy exactly
when it is non-empty, so a non-empty stderr with empty stdout yields
`{success:false, message:stderr}`, and every other resolved outcome yields
`{success:true, message:stdout}`.  A rejected promise is caught and converted
into `{success:false, message:errorMessage}`; the function never throws. -/
def executeCommand : ExecOutcome → CommandResult
  | .ok stdout stderr =>
      if stderr ≠ "" ∧ stdout = "" then { success := false, message := stderr }
      else { success := true, message := stdout }
  | .err message => { success := false, message := message }

/-- `checkFoundryInstalled` (src/index.ts:857-865): runs `forge --version`;
returns true when the exec promise resolves and false when it rejects. -/
def checkFoundryInstalled : ExecOutcome → Bool
  | .ok _ _ => true
  | .err _ => false

/-- `FOUNDRY_BIN = path.join(homeDir, ".foundry", "bin")` (src/index.ts:840). -/
def FOUNDRY_BIN (homeDir : String) : String := homeDir ++ "/.foundry/bin"

/-- `castPath` (src/index.ts:843). -/
def castPath (homeDir : String) : String := FOUNDRY_BIN homeDir ++ "/cast"

/-- `forgePath` (src/index.ts:844). -/
def forgePath (homeDir : String) : String := FOUNDRY_BIN homeDir ++ "/forge"

/-- `anvilPath` (src/index.ts:845). -/
def anvilPath (homeDir : String) : String := FOUNDRY_BIN homeDir ++ "/anvil"

/-- The fixed advisory message (src/index.ts:854-855). -/
def FOUNDRY_NOT_INSTALLED_ERROR : String :=
  "Foundry tools are not installed. Please install Foundry: https://book.getfoundry.sh/getting-started/installation"

/-- The ambient process state a handler can observe: the home directory, the
`RPC_URL` and `PRIVATE_KEY` environment variables, the contents of
`~/.foundry/config.toml` (`none` when the file is missing or unreadable), the
outcome of the `forge --version` probe, and `os.platform()`. -/
structure Env where
  homeDir : String
  envRpcUrl : Option String
  envPrivateKey : Option String
  config : Option String
  forgeProbe : ExecOutcome
  platform : String

/-- The value of `await checkFoundryInstalled()` in this environment. -/
def Env.installed (e : Env) : Bool := checkFoundryInstalled e.forgeProbe

/-- JavaScript truthiness of an optional string: `undefined` and the empty
string are falsy, every other string is truthy. -/
def truthy : Option String → Bool
  | none => false
  | some s => s != ""

/-- The string value of an optional string (`""` for `undefined`); only ever
used under a `truthy` guard, mirroring how the source dereferences the
variable inside the corresponding `if`. -/
def strVal : Option String → String
  | none => ""
  | some s => s

/-- `DEFAULT_RPC_URL = process.env.RPC_URL || "http://localhost:8545"`
(src/index.ts:852).  `||` takes the right operand when the left is falsy,
i.e. unset or empty. -/
def DEFAULT_RPC_URL (e : Env) : String :=
  if truthy e.envRpcUrl then strVal e.envRpcUrl else "http://localhost:8545"

/-- JavaScript `String.prototype.startsWith`, as character-list prefix
testing (kernel-reducible, unlike the byte-indexed core `String.startsWith`;
the two agree on these inputs). -/
def jsStartsWith (s pre : String) : Bool := pre.data.isPrefixOf s.data

/-- The ASCII characters matched by the JavaScript regex class `\s`
(the Unicode space characters it also matches do not occur in the inputs of
interest). -/
def jsWhitespace (c : Char) : Bool :=
  c == ' ' || c == '\t' || c == '\n' || c == '\x0d' || c == Char.ofNat 12 || c == Char.ofNat 11

/-- The two quote characters of the regex class `["']`. -/
def isCfgQuote (c : Char) : Bool := c == '"' || c == Char.ofNat 39

/-- One attempt to match the tail `ALIAS\s*=\s*["']([^"']+)["']` of the regex
in `resolveRpcUrl` (src/index.ts:897-899) at the head of `s`, returning the
captured group.  The key is interpolated into the regex verbatim by the
source; we model it as matching literally (aliases are plain TOML keys).
`\s*` is greedy, but since `=` and the quotes are not whitespace, maximal
munch is equivalent; `([^"']+)` is greedy and must be followed by a quote, so
it matches exactly a non-empty maximal quote-free run terminated by a quote. -/
def matchAssignAt (key s : List Char) : Option (List Char) :=
  if key.isPrefixOf s then
    match (s.drop key.length).dropWhile jsWhitespace with
    | '=' :: s2 =>
      match s2.dropWhile jsWhitespace with
      | q :: s4 =>
        if isCfgQuote q then
          let cap := s4.takeWhile (fun d => !isCfgQuote d)
          let rest := s4.dropWhile (fun d => !isCfgQuote d)
          if cap ≠ [] ∧ rest ≠ [] then some cap else none
        else none
      | [] => none
    | _ => none
  else none

/-- Scan left to right for the first position where the tail of the regex
matches (the lazy `[\s\S]*?` selects the earliest such position). -/
def findAssign (key : List Char) : List Char → Option (List Char)
  | [] => matchAssignAt key []
  | c :: rest =>
    match matchAssignAt key (c :: rest) with
    | some cap => some cap
    | none => findAssign key rest

/-- The literal `\[rpc_endpoints\]` part of the regex. -/
def rpcHeader : List Char := "[rpc_endpoints]".data

/-- Scan for the first occurrence of `[rpc_endpoints]` and then for the first
key assignment after it.  A match of the whole regex starts at an
occurrence of the header; since `[\s\S]*?` can grow without bound, the first
header occurrence admits a match exactly when an assignment occurs anywhere
after it, so later header occurrences never need to be tried. -/
def findSection (key : List Char) : List Char → Option (List Char)
  | [] => none
  | c :: rest =>
    if rpcHeader.isPrefixOf (c :: rest) then
      findAssign key ((c :: rest).drop rpcHeader.length)
    else findSection key rest

/-- The regex lookup performed by `resolveRpcUrl` on the config file
(src/index.ts:896-903): the value of the first capture of
`\[rpc_endpoints\][\s\S]*?ALIAS\s*=\s*["']([^"']+)["']` run against the
config contents, if the regex matches. -/
def rpcEndpointLookup (content key : String) : Option String :=
  (findSection key.data content.data).map (fun cap => ⟨cap⟩)

/-- `resolveRpcUrl` (src/index.ts:880-911).  A falsy (absent or empty)
argument returns `DEFAULT_RPC_URL`.  Otherwise, when the string does not
start with `"http"`, the config file is consulted: if it exists and the regex
matches, the captured value is returned (the capture is non-empty, hence
truthy); any config-read error is swallowed.  In every other case the
argument is returned unchanged.  The source phrases this with early returns;
the branch structure below is the same decision tree. -/
def resolveRpcUrl (e : Env) (rpcUrl : Option String) : String :=
  if truthy rpcUrl then
    let u := strVal rpcUrl
    if jsStartsWith u "http" then u
    else
      match e.config with
      | some content =>
        match rpcEndpointLookup content u with
        | some v => v
        | none => u
      | none => u
  else DEFAULT_RPC_URL e

/-- JavaScript `String.prototype.trim`: strip whitespace from both ends. -/
def jsTrim (s : String) : String :=
  ⟨((s.data.dropWhile jsWhitespace).reverse.dropWhile jsWhitespace).reverse⟩

/-- JavaScript `String.prototype.split` with a single-character separator. -/
def splitChar (sep : Char) : List Char → List (List Char)
  | [] => [[]]
  | c :: rest =>
    if c = sep then [] :: splitChar sep rest
    else
      match splitChar sep rest with
      | [] => [[c]]
      | h :: t => (c :: h) :: t

/-- JavaScript `String.prototype.includes`, for a fixed pattern. -/
def containsList (pat : List Char) : List Char → Bool
  | [] => pat.isEmpty
  | c :: rest => pat.isPrefixOf (c :: rest) || containsList pat rest

/-- `s.includes(pat)`. -/
def jsIncludes (s pat : String) : Bool := containsList pat.data s.data

/-- Wrap a string in double quotes, as the template fragments `"${...}"` in
the command builders do. -/
def quoteArg (s : String) : String := "\"" ++ s ++ "\""

/-- Join strings with a separator (JavaScript `Array.prototype.join`). -/
def joinWith (sep : String) : List String → String
  | [] => ""
  | [t] => t
  | t :: ts => t ++ sep ++ joinWith sep ts

/-- Join command-line tokens with single spaces.  Each `command += ...`
statement in the source appends one space-prefixed group of tokens to the
command string, so the built command string is exactly the space-join of the
token list; the token-list form keeps the builders' structure visible. -/
def joinSp (ts : List String) : String := joinWith " " ts

/-- An optional string flag guarded by JavaScript truthiness, as in
`if (blockNumber) command += ` --block ${blockNumber}``. -/
def optFlag (flag : String) (v : Option String) : List String :=
  if truthy v then [flag, strVal v] else []

/-- An optional string flag whose value is additionally wrapped in quotes,
as in `if (forkUrl) command += ` --fork-url "${forkUrl}"``. -/
def optFlagQ (flag : String) (v : Option String) : List String :=
  if truthy v then [flag, quoteArg (strVal v)] else []

/-- An optional numeric flag guarded by truthiness (`0` is falsy in
JavaScript, so a zero value emits nothing). -/
def optNatFlag (flag : String) (v : Option Nat) : List String :=
  match v with
  | some n => if n ≠ 0 then [flag, toString n] else []
  | none => []

/-- An optional numeric flag guarded by `!== undefined` (`0` is emitted). -/
def optNatFlagDefined (flag : String) (v : Option Nat) : List String :=
  match v with
  | some n => [flag, toString n]
  | none => []

/-- A boolean presence flag: `if (b) command += " --flag"`. -/
def boolFlag (flag : String) (b : Bool) : List String :=
  if b then [flag] else []

/-- A matched assignment always captures at least one character. -/
theorem matchAssignAt_ne_some_nil (key s : List Char) :
    matchAssignAt key s ≠ some [] := by
  unfold matchAssignAt
  split
  · split
    · split
      · split
        · dsimp only
          split
          · next hne =>
              simp only [ne_eq, Option.some.injEq]
              intro hc
              exact hne.1 hc
          · simp
        · simp
      · simp
    · simp
  · simp

/-- The scan preserves non-emptiness of the capture. -/
theorem findAssign_ne_some_nil (key : List Char) :
    ∀ s, findAssign key s ≠ some [] := by
  intro s
  induction s with
  | nil => simpa [findAssign] using matchAssignAt_ne_some_nil key []
  | cons c rest ih =>
    simp only [findAssign]
    split
    · next cap heq =>
        intro h
        injection h with h
        exact matchAssignAt_ne_some_nil key (c :: rest) (h ▸ heq)
    · exact ih

/-- The section scan preserves non-emptiness of the capture. -/
theorem findSection_ne_some_nil (key : List Char) :
    ∀ s, findSection key s ≠ some [] := by
  intro s
  induction s with
  | nil => simp [findSection]
  | cons c rest ih =>
    simp only [findSection]
    split
    · exact findAssign_ne_some_nil key _
    · exact ih

/-- A successful config lookup never returns the empty string (the regex
capture group is `([^"']+)`, one character or more). -/
theorem rpcEndpointLookup_ne_empty {content key v : String}
    (h : rpcEndpointLookup content key = some v) : v ≠ "" := by
  unfold rpcEndpointLookup at h
  cases hf : findSection key.data content.data with
  | none => rw [hf] at h; simp at h
  | some cap =>
      rw [hf] at h
      simp only [Option.map_some', Option.some.injEq] at h
      intro hv
      apply findSection_ne_some_nil key.data content.data
      rw [hf]
      have : cap = [] := by
        have := congrArg String.data (h.trans hv)
        simpa using this
      rw [this]

/-- The environment default is never empty: either `RPC_URL` is set and
non-empty, or the hardcoded fallback is used. -/
theorem DEFAULT_RPC_URL_ne_empty (e : Env) : DEFAULT_RPC_URL e ≠ "" := by
  unfold DEFAULT_RPC_URL
  split
  · next h =>
      cases henv : e.envRpcUrl with
      | none => rw [henv] at h; simp [truthy] at h
      | some s =>
          rw [henv] at h
          simp only [truthy, bne_iff_ne, ne_eq] at h
          simpa [henv, strVal] using h
  · decide

/-- A string starting with `"http"` is non-empty. -/
theorem jsStartsWith_http_ne_empty {u : String}
    (h : jsStartsWith u "http" = true) : u ≠ "" := by
  intro hu
  rw [hu] at h
  exact absurd h (by decide)

/-- The resolver never produces the empty string. -/
theorem resolveRpcUrl_ne_empty (e : Env) (o : Option String) :
    resolveRpcUrl e o ≠ "" := by
  unfold resolveRpcUrl
  split
  · next ht =>
      have hu : strVal o ≠ "" := by
        cases o with
        | none => simp [truthy] at ht
        | some s =>
            simp only [truthy, bne_iff_ne, ne_eq] at ht
            simpa [strVal] using ht
      dsimp only
      split
      · exact hu
      · cases hc : e.config with
        | some content =>
            dsimp only
            cases hl : rpcEndpointLookup content (strVal o) with
            | some v => simp only [hl]; exact rpcEndpointLookup_ne_empty hl
            | none => simp only [hl]; exact hu
        | none => exact hu
  · exact DEFAULT_RPC_URL_ne_empty e

/-- A concrete environment: no `RPC_URL`, no `PRIVATE_KEY`, no readable
config file, `forge --version` failing, Linux. -/
def env0 : Env :=
  { homeDir := "/home/user", envRpcUrl := none, envPrivateKey := none,
    config := none, forgeProbe := ExecOutcome.err "spawn ENOENT", platform := "linux" }

/-- `env0` with the Foundry toolchain installed. -/
def envOk : Env := { env0 with forgeProbe := ExecOutcome.ok "forge 0.2.0\n" "" }

/-- A config file with an `[rpc_endpoints]` section. -/
def cfgSample : String :=
  "[profile.default]\nsrc = 'src'\n[rpc_endpoints]\nmainnet = \"https://eth.example/rpc\"\n"

/-- `envOk` with `cfgSample` as the readable config file. -/
def envCfg : Env := { envOk with config := some cfgSample }

/-- One MCP tool response: a single text content block and the `isError`
flag (absent in the source means false). -/
structure ToolResponse where
  text : String
  isError : Bool
deriving DecidableEq

/-- An error response. -/
def errResp (t : String) : ToolResponse := { text := t, isError := true }

/-- A success response. -/
def okResp (t : String) : ToolResponse := { text := t, isError := false }

/-- The response every checked tool returns when `checkFoundryInstalled`
reports false. -/
def notInstalledResp : ToolResponse := errResp FOUNDRY_NOT_INSTALLED_ERROR

/-- The process-table scan command used by `getAnvilInfo`
(src/index.ts:915). -/
def ANVIL_PS_CMD : String := "ps aux | grep anvil | grep -v grep"

/-- Decimal digit test (kernel-reducible form of the regex class `\d`). -/
def isDigitChar (c : Char) : Bool := 48 ≤ c.toNat && c.toNat ≤ 57

/-- One attempt to match `--port\s+(\d+)` at the head of `s`: the literal
`--port`, at least one whitespace character (maximal munch, equivalent to the
greedy `\s+` since a digit is not whitespace), then the captured maximal
non-empty digit run. -/
def matchPortAt (s : List Char) : Option (List Char) :=
  if "--port".data.isPrefixOf s then
    let s1 := s.drop "--port".data.length
    let ws := s1.takeWhile jsWhitespace
    let ds := (s1.dropWhile jsWhitespace).takeWhile isDigitChar
    if ws ≠ [] ∧ ds ≠ [] then some ds else none
  else none

/-- First match of `--port\s+(\d+)` in `s` (the regex `match` scans left to
right for the first position where the pattern matches). -/
def findPort : List Char → Option (List Char)
  | [] => none
  | c :: rest =>
    match matchPortAt (c :: rest) with
    | some ds => some ds
    | none => findPort rest

/-- The `NodeStatus` snapshot returned by `getAnvilInfo`: `{running:false}`
or `{running:true, port, url}` with `url` derived from the port. -/
structure AnvilInfo where
  running : Bool
  port : Option String
deriving DecidableEq

/-- `http://localhost:${port}`, the `url` field of a running snapshot. -/
def anvilUrl (port : String) : String := "http://localhost:" ++ port

/-- `getAnvilInfo` (src/index.ts:913-931): run the process-table scan; a
rejected promise (grep found nothing and exited non-zero) or an empty stdout
means not running; otherwise extract the port from the first
`--port\s+(\d+)` match in the scan output, defaulting to `"8545"`. -/
def getAnvilInfo (psOut : ExecOutcome) : AnvilInfo :=
  match psOut with
  | .err _ => { running := false, port := none }
  | .ok stdout _ =>
    if stdout = "" then { running := false, port := none }
    else
      { running := true,
        port := some (match findPort stdout.data with
          | some ds => (⟨ds⟩ : String)
          | none => "8545") }

/-- The guarded `--rpc-url "${resolvedRpcUrl}"` group appended by most cast
tools: `if (resolvedRpcUrl) command += ...` — the resolved URL is in fact
always non-empty (`resolveRpcUrl_ne_empty`), so this group is always
emitted. -/
def rpcUrlTokens (e : Env) (rpcUrl : Option String) : List String :=
  let r := resolveRpcUrl e rpcUrl
  if r ≠ "" then ["--rpc-url", quoteArg r] else []

/-- `functionSignature.split("(")[0]`: the prefix before the first `(`. -/
def sigName (functionSignature : String) : String :=
  ⟨functionSignature.data.takeWhile (fun c => c != '(')⟩

/-- Tokens of the command built by `cast_call` (src/index.ts:1036-1053):
`cast call <addr> "<sig>"`, the unquoted space-joined args, then the guarded
`--rpc-url`, `--block` and `--from` groups in that order. -/
def castCallTokens (e : Env) (contractAddress functionSignature : String)
    (args : List String) (rpcUrl blockNumber from_ : Option String) : List String :=
  [castPath e.homeDir, "call", contractAddress, quoteArg functionSignature]
    ++ args
    ++ rpcUrlTokens e rpcUrl
    ++ optFlag "--block" blockNumber
    ++ optFlag "--from" from_

/-- The output post-processing in `cast_call` (src/index.ts:1057-1070): on
success, if the message has a newline and no "Error", each line is trimmed,
empty lines are dropped and the lines re-joined. -/
def castCallFormat (success : Bool) (message : String) : String :=
  if success && (jsIncludes message "\n" && !jsIncludes message "Error") then
    joinWith "\n"
      (((splitChar '\n' message.data).map (fun l => jsTrim ⟨l⟩)).filter (fun l => l != ""))
  else message

/-- The `cast_call` handler (src/index.ts:1020-1085). -/
def castCall (e : Env) (contractAddress functionSignature : String)
    (args : List String) (rpcUrl blockNumber from_ : Option String)
    (execOut : ExecOutcome) : ToolResponse × List String :=
  if e.installed then
    let command := joinSp (castCallTokens e contractAddress functionSignature
      args rpcUrl blockNumber from_)
    let result := executeCommand execOut
    ({ text :=
        if result.success then
          "Call to " ++ contractAddress ++ "." ++ sigName functionSignature
            ++ " result:\n" ++ castCallFormat result.success result.message
        else "Call failed: " ++ result.message,
       isError := !result.success }, [command])
  else (notInstalledResp, [])

/-- The signing-option selection in `cast_send` (src/index.ts:1151-1177):
privateKey parameter first, then the `PRIVATE_KEY` environment variable,
then `from` — which is emitted as `--from` exactly when it starts with "0x"
and has length 42, and as `--private-key` otherwise; `none` when all three
are falsy (the handler then errors out).  String length is the number of
characters, matching JavaScript's UTF-16 length on these inputs. -/
def castSendSigner (e : Env) (privateKey from_ : Option String) :
    Option (List String) :=
  if truthy privateKey then some ["--private-key", strVal privateKey]
  else if truthy e.envPrivateKey then some ["--private-key", strVal e.envPrivateKey]
  else if truthy from_ then
    some (if jsStartsWith (strVal from_) "0x" && (strVal from_).length == 42
      then ["--from", strVal from_]
      else ["--private-key", strVal from_])
  else none

/-- The no-signer error text of `cast_send` (src/index.ts:1172). -/
def NO_SENDER_ERROR : String :=
  "Error: No sender address or private key provided. Please specify one using 'from' or 'privateKey' parameter, or set the PRIVATE_KEY environment variable."

/-- Tokens of the command built by `cast_send` (src/index.ts:1143-1197), or
`none` when no signing option is available: base command, args, signing
tokens, then the guarded `--value`, `--rpc-url`, `--gas-limit`, `--gas-price`
and `--confirmations` groups in source order. -/
def castSendTokens (e : Env) (contractAddress functionSignature : String)
    (args : List String) (from_ privateKey value rpcUrl gasLimit gasPrice : Option String)
    (confirmations : Option Nat) : Option (List String) :=
  match castSendSigner e privateKey from_ with
  | none => none
  | some signTokens =>
    some ([castPath e.homeDir, "send", contractAddress, quoteArg functionSignature]
      ++ args ++ signTokens
      ++ optFlag "--value" value
      ++ rpcUrlTokens e rpcUrl
      ++ optFlag "--gas-limit" gasLimit
      ++ optFlag "--gas-price" gasPrice
      ++ optNatFlag "--confirmations" confirmations)

/-- The `cast_send` handler (src/index.ts:1123-1212). -/
def castSend (e : Env) (contractAddress functionSignature : String)
    (args : List String) (from_ privateKey value rpcUrl gasLimit gasPrice : Option String)
    (confirmations : Option Nat) (execOut : ExecOutcome) :
    ToolResponse × List String :=
  if e.installed then
    match castSendTokens e contractAddress functionSignature args from_ privateKey
      value rpcUrl gasLimit gasPrice confirmations with
    | none => (errResp NO_SENDER_ERROR, [])
    | some ts =>
      let result := executeCommand execOut
      ({ text :=
          if result.success then "Transaction sent successfully:\n" ++ result.message
          else "Transaction failed: " ++ result.message,
         isError := !result.success }, [joinSp ts])
  else (notInstalledResp, [])

/-- Tokens of the command built by `cast_balance` (src/index.ts:1244-1256). -/
def castBalanceTokens (e : Env) (address : String)
    (rpcUrl blockNumber : Option String) (formatEther : Bool) : List String :=
  [castPath e.homeDir, "balance", address]
    ++ rpcUrlTokens e rpcUrl
    ++ optFlag "--block" blockNumber
    ++ boolFlag "--ether" formatEther

/-- The `cast_balance` handler (src/index.ts:1234-1272); `formatEther`
defaults to false. -/
def castBalance (e : Env) (address : String) (rpcUrl blockNumber : Option String)
    (formatEther : Option Bool) (execOut : ExecOutcome) :
    ToolResponse × List String :=
  if e.installed then
    let fe := formatEther.getD false
    let command := joinSp (castBalanceTokens e address rpcUrl blockNumber fe)
    let result := executeCommand execOut
    let unitName := if fe then "ETH" else "wei"
    ({ text :=
        if result.success then
          "Balance of " ++ address ++ ": " ++ jsTrim result.message ++ " " ++ unitName
        else "Failed to get balance: " ++ result.message,
       isError := !result.success }, [command])
  else (notInstalledResp, [])

/-- Tokens of the command built by `cast_receipt` (src/index.ts:1303-1316);
the optional `field` is appended bare, without a flag. -/
def castReceiptTokens (e : Env) (txHash : String) (rpcUrl : Option String)
    (confirmations : Option Nat) (field : Option String) : List String :=
  [castPath e.homeDir, "receipt", txHash]
    ++ rpcUrlTokens e rpcUrl
    ++ optNatFlag "--confirmations" confirmations
    ++ (if truthy field then [strVal field] else [])

/-- The `cast_receipt` handler (src/index.ts:1294-1333). -/
def castReceipt (e : Env) (txHash : String) (rpcUrl : Option String)
    (confirmations : Option Nat) (field : Option String) (execOut : ExecOutcome) :
    ToolResponse × List String :=
  if e.installed then
    let command := joinSp (castReceiptTokens e txHash rpcUrl confirmations field)
    let result := executeCommand execOut
    ({ text :=
        if result.success then
          "Transaction receipt for " ++ txHash
            ++ (if truthy field then " (" ++ strVal field ++ ")" else "")
            ++ ":\n" ++ result.message
        else "Failed to get receipt: " ++ result.message,
       isError := !result.success }, [command])
  else (notInstalledResp, [])

/-- Tokens of the command built by `cast_storage` (src/index.ts:1362-1370). -/
def castStorageTokens (e : Env) (address slot : String)
    (rpcUrl blockNumber : Option String) : List String :=
  [castPath e.homeDir, "storage", address, slot]
    ++ rpcUrlTokens e rpcUrl
    ++ optFlag "--block" blockNumber

/-- The `cast_storage` handler (src/index.ts:1352-1385). -/
def castStorage (e : Env) (address slot : String)
    (rpcUrl blockNumber : Option String) (execOut : ExecOutcome) :
    ToolResponse × List String :=
  if e.installed then
    let command := joinSp (castStorageTokens e address slot rpcUrl blockNumber)
    let result := executeCommand execOut
    ({ text :=
        if result.success then
          "Storage at " ++ address ++ " slot " ++ slot ++ ": " ++ jsTrim result.message
        else "Failed to read storage: " ++ result.message,
       isError := !result.success }, [command])
  else (notInstalledResp, [])

/-- Tokens of the command built by `cast_run` (src/index.ts:1420-1437);
`rpcUrl` is a required argument here but still goes through the resolver,
and each label appends an unguarded `--label <label>` pair. -/
def castRunTokens (e : Env) (txHash rpcUrl : String) (quick debug : Bool)
    (labels : List String) : List String :=
  [castPath e.homeDir, "run", txHash]
    ++ rpcUrlTokens e (some rpcUrl)
    ++ boolFlag "--quick" quick
    ++ boolFlag "--debug" debug
    ++ (labels.map (fun l => ["--label", l])).flatten

/-- The `cast_run` handler (src/index.ts:1410-1452). -/
def castRun (e : Env) (txHash rpcUrl : String) (quick debug : Option Bool)
    (labels : List String) (execOut : ExecOutcome) : ToolResponse × List String :=
  if e.installed then
    let command := joinSp (castRunTokens e txHash rpcUrl
      (quick.getD false) (debug.getD false) labels)
    let result := executeCommand execOut
    ({ text :=
        if result.success then "Transaction trace for " ++ txHash ++ ":\n" ++ result.message
        else "Failed to run transaction: " ++ result.message,
       isError := !result.success }, [command])
  else (notInstalledResp, [])

/-- Tokens of the command built by `cast_logs` (src/index.ts:1490-1510). -/
def castLogsTokens (e : Env) (signature : String) (topics : List String)
    (address fromBlock toBlock rpcUrl : Option String) : List String :=
  [castPath e.homeDir, "logs", quoteArg signature]
    ++ topics
    ++ optFlag "--address" address
    ++ optFlag "--from-block" fromBlock
    ++ optFlag "--to-block" toBlock
    ++ rpcUrlTokens e rpcUrl

/-- The `cast_logs` handler (src/index.ts:1480-1525). -/
def castLogs (e : Env) (signature : String) (topics : List String)
    (address fromBlock toBlock rpcUrl : Option String) (execOut : ExecOutcome) :
    ToolResponse × List String :=
  if e.installed then
    let command := joinSp (castLogsTokens e signature topics address fromBlock toBlock rpcUrl)
    let result := executeCommand execOut
    ({ text :=
        if result.success then
          "Logs for signature " ++ quoteArg signature ++ ":\n" ++ result.message
        else "Failed to get logs: " ++ result.message,
       isError := !result.success }, [command])
  else (notInstalledResp, [])

/-- The `cast_sig` handler (src/index.ts:1539-1567). -/
def castSig (e : Env) (signature : String) (isEvent : Option Bool)
    (execOut : ExecOutcome) : ToolResponse × List String :=
  if e.installed then
    let ie := isEvent.getD false
    let command := joinSp (if ie then [castPath e.homeDir, "sig-event", quoteArg signature]
      else [castPath e.homeDir, "sig", quoteArg signature])
    let result := executeCommand execOut
    ({ text :=
        if result.success then
          "Selector for " ++ (if ie then "event" else "function") ++ " "
            ++ quoteArg signature ++ ": " ++ jsTrim result.message
        else "Selector generation failed: " ++ result.message,
       isError := !result.success }, [command])
  else (notInstalledResp, [])

/-- The `cast_4byte` handler (src/index.ts:1585-1613). -/
def castFourByte (e : Env) (selector : String) (isEvent : Option Bool)
    (execOut : ExecOutcome) : ToolResponse × List String :=
  if e.installed then
    let ie := isEvent.getD false
    let command := joinSp [castPath e.homeDir,
      if ie then "4byte-event" else "4byte", selector]
    let result := executeCommand execOut
    ({ text :=
        if result.success then
          "Possible " ++ (if ie then "event" else "function") ++ " signatures for "
            ++ selector ++ ":\n" ++ result.message
        else "Lookup failed: " ++ result.message,
       isError := !result.success }, [command])
  else (notInstalledResp, [])

/-- Tokens of the command built by `cast_chain` (src/index.ts:1640-1642);
unlike the other cast tools the `--rpc-url "${resolvedRpcUrl}"` pair is
appended unconditionally. -/
def castChainTokens (e : Env) (rpcUrl : Option String) (returnId : Bool) :
    List String :=
  [castPath e.homeDir, if returnId then "chain-id" else "chain",
   "--rpc-url", quoteArg (resolveRpcUrl e rpcUrl)]

/-- The `cast_chain` handler (src/index.ts:1630-1657). -/
def castChain (e : Env) (rpcUrl : Option String) (returnId : Option Bool)
    (execOut : ExecOutcome) : ToolResponse × List String :=
  if e.installed then
    let ri := returnId.getD false
    let command := joinSp (castChainTokens e rpcUrl ri)
    let result := executeCommand execOut
    ({ text :=
        if result.success then
          "Chain " ++ (if ri then "ID" else "name") ++ ": " ++ jsTrim result.message
        else "Failed to get chain information: " ++ result.message,
       isError := !result.success }, [command])
  else (notInstalledResp, [])

/-- Tokens of the anvil launch command built by `anvil_start`
(src/index.ts:1726-1746): `--port` always (defaulted argument), `--block-time`,
`--fork-block-number` and `--accounts` guarded by `!== undefined` (so 0 is
emitted), `--fork-url` and `--mnemonic` guarded by truthiness and quoted,
with `--fork-block-number` only considered inside the `forkUrl` branch. -/
def anvilStartTokens (e : Env) (port : Nat) (blockTime : Option Nat)
    (forkUrl : Option String) (forkBlockNumber accounts : Option Nat)
    (mnemonic : Option String) : List String :=
  [anvilPath e.homeDir, "--port", toString port]
    ++ optNatFlagDefined "--block-time" blockTime
    ++ (if truthy forkUrl then
          ["--fork-url", quoteArg (strVal forkUrl)]
            ++ optNatFlagDefined "--fork-block-number" forkBlockNumber
        else [])
    ++ optNatFlagDefined "--accounts" accounts
    ++ optFlagQ "--mnemonic" mnemonic

/-- The `anvil_start` handler (src/index.ts:1695-1803).  Oracle inputs:
`psBefore`/`psAfter` are the outcomes of the process-table scans before the
launch and after the 1000 ms grace period; `spawnErr` is `some message` when
the `exec` launch itself throws synchronously (the try/catch around it);
`childPid` is the printed `child.pid`.  The `silent` argument only controls
console logging of the detached child's output and does not affect the
response, so it is not modelled. -/
def anvilStart (e : Env) (port blockTime : Option Nat) (forkUrl : Option String)
    (forkBlockNumber accounts : Option Nat) (mnemonic : Option String)
    (psBefore : ExecOutcome) (spawnErr : Option String) (childPid : String)
    (psAfter : ExecOutcome) : ToolResponse × List String :=
  if e.installed then
    let info := getAnvilInfo psBefore
    if info.running then
      (errResp ("Anvil is already running on port " ++ info.port.getD "" ++ "."),
       [ANVIL_PS_CMD])
    else
      let p := port.getD 8545
      let command := joinSp (anvilStartTokens e p blockTime forkUrl
        forkBlockNumber accounts mnemonic)
      match spawnErr with
      | some m => (errResp ("Error starting Anvil: " ++ m), [ANVIL_PS_CMD, command])
      | none =>
        let newInfo := getAnvilInfo psAfter
        if newInfo.running then
          (okResp ("Anvil started successfully on port " ++ toString p ++ ". "
              ++ "RPC URL: http://localhost:" ++ toString p ++ "\n"
              ++ "Process ID: " ++ childPid),
           [ANVIL_PS_CMD, command, ANVIL_PS_CMD])
        else
          (errResp "Failed to start Anvil. Check system logs for details.",
           [ANVIL_PS_CMD, command, ANVIL_PS_CMD])
  else (notInstalledResp, [])

/-- The platform-appropriate kill-by-name command of `anvil_stop`
(src/index.ts:1823-1827). -/
def anvilStopKillCmd (e : Env) : String :=
  if e.platform == "win32" then "taskkill /F /IM anvil.exe" else "pkill -f anvil"

/-- The `anvil_stop` handler (src/index.ts:1807-1866).  Note: this handler
does NOT call `checkFoundryInstalled`.  Oracle inputs: `psBefore`/`psAfter`
are the process-table scans before the kill and after the 500 ms grace
period; `killOut` is the outcome of the kill command (run directly through
`execAsync`, so a rejection lands in the catch). -/
def anvilStop (e : Env) (psBefore killOut psAfter : ExecOutcome) :
    ToolResponse × List String :=
  let info := getAnvilInfo psBefore
  if info.running then
    match killOut with
    | .err m =>
        (errResp ("Error stopping Anvil: " ++ m), [ANVIL_PS_CMD, anvilStopKillCmd e])
    | .ok _ _ =>
        let newInfo := getAnvilInfo psAfter
        if newInfo.running then
          (errResp "Failed to stop Anvil. It may still be running.",
           [ANVIL_PS_CMD, anvilStopKillCmd e, ANVIL_PS_CMD])
        else
          (okResp "Anvil has been stopped successfully.",
           [ANVIL_PS_CMD, anvilStopKillCmd e, ANVIL_PS_CMD])
  else
    (errResp "No Anvil instance is currently running.", [ANVIL_PS_CMD])

/-- The `anvil_status` handler (src/index.ts:1869-1887).  Note: this handler
does NOT call `checkFoundryInstalled`, and neither branch sets `isError`. -/
def anvilStatus (psOut : ExecOutcome) : ToolResponse × List String :=
  let info := getAnvilInfo psOut
  (okResp (if info.running then
      "Anvil is running on port " ++ info.port.getD "" ++ ". RPC URL: "
        ++ anvilUrl (info.port.getD "")
    else "Anvil is not currently running."), [ANVIL_PS_CMD])

/-- `FOUNDRY_WORKSPACE = path.join(os.homedir(), "foundry-mcp-server",
"workspace")` (src/index.ts:808-812). -/
def FOUNDRY_WORKSPACE (homeDir : String) : String :=
  homeDir ++ "/foundry-mcp-server/workspace"

/-- The project-initialization command run by `ensureWorkspaceInitialized`
(src/index.ts:825-827). -/
def forgeInitCommand (e : Env) : String :=
  "cd " ++ FOUNDRY_WORKSPACE e.homeDir ++ " && " ++ forgePath e.homeDir
    ++ " init --no-git"

/-- What one call to `ensureWorkspaceInitialized` does: the workspace path it
returns, the directories it ensures exist, and the subprocess commands it
runs. -/
structure WorkspaceInit where
  workspace : String
  dirsEnsured : List String
  commands : List String
deriving DecidableEq

/-- `ensureWorkspaceInitialized` (src/index.ts:814-835):
`fs.mkdir(FOUNDRY_WORKSPACE, {recursive: true})` ensures the fixed root
exists (creating it when absent), then `forge init --no-git` is run inside
it if and only if the `foundry.toml` marker is absent (`markerExists` is the
outcome of the `fs.access` probe); the init command's result is ignored.
A filesystem failure would be rethrown to the caller's catch; the modelled
function is the non-throwing path. -/
def ensureWorkspaceInitialized (e : Env) (markerExists : Bool) : WorkspaceInit :=
  { workspace := FOUNDRY_WORKSPACE e.homeDir
  , dirsEnsured := [FOUNDRY_WORKSPACE e.homeDir]
  , commands := if markerExists then [] else [forgeInitCommand e] }

/-- The signing-option selection shared by `forge_script` and the deploy
tools (src/index.ts:1970-1976 and the copies at 2106-2112, 2238-2244,
2386-2392): `--private-key` from the argument or the environment only when
broadcasting, else `--sender` when a sender is given, else nothing. -/
def forgeScriptSigner (e : Env) (privateKey sender : Option String)
    (broadcast : Bool) : List String :=
  if truthy privateKey && broadcast then ["--private-key", strVal privateKey]
  else if truthy e.envPrivateKey && broadcast then
    ["--private-key", strVal e.envPrivateKey]
  else if truthy sender then ["--sender", strVal sender]
  else []

/-- Tokens of the command built by `forge_script` (src/index.ts:1960-1987). -/
def forgeScriptTokens (e : Env) (ws scriptPath sig : String)
    (rpcUrl sender privateKey : Option String) (broadcast verify : Bool) :
    List String :=
  ["cd", ws, "&&", forgePath e.homeDir, "script", scriptPath, "--sig", quoteArg sig]
    ++ rpcUrlTokens e rpcUrl
    ++ forgeScriptSigner e privateKey sender broadcast
    ++ boolFlag "--broadcast" broadcast
    ++ boolFlag "--verify" verify
    ++ ["-vvv"]

/-- The `forge_script` handler (src/index.ts:1921-2015).  `markerExists` and
`scriptExists` are the outcomes of the two `fs.access` probes
(`foundry.toml` in the workspace, and the script path). -/
def forgeScript (e : Env) (scriptPath : String) (sig : Option String)
    (rpcUrl sender privateKey : Option String) (broadcast verify : Option Bool)
    (markerExists scriptExists : Bool) (execOut : ExecOutcome) :
    ToolResponse × List String :=
  if e.installed then
    let ws := ensureWorkspaceInitialized e markerExists
    if scriptExists then
      let command := joinSp (forgeScriptTokens e ws.workspace scriptPath
        (sig.getD "run()") rpcUrl sender privateKey
        (broadcast.getD false) (verify.getD false))
      let result := executeCommand execOut
      ({ text :=
          if result.success then "Script executed successfully:\n" ++ result.message
          else "Script execution failed: " ++ result.message,
         isError := !result.success }, ws.commands ++ [command])
    else
      (errResp ("Script does not exist at " ++ ws.workspace ++ "/" ++ scriptPath),
       ws.commands)
  else (notInstalledResp, [])

/-- One `NAME="value" ` fragment of the environment-variable prefix the
deploy tools place before the forge binary. -/
def envVarToken (name value : String) : String := name ++ "=" ++ quoteArg value

/-- Tokens of the `cd <ws> && <env vars> forge script ...` command shared by
the three deploy tools (src/index.ts:2096-2119 and copies). -/
def deployScriptTokens (e : Env) (ws scriptPath : String)
    (envTokens : List String) (rpcUrl sender privateKey : Option String)
    (broadcast : Bool) : List String :=
  ["cd", ws, "&&"] ++ envTokens
    ++ [forgePath e.homeDir, "script", scriptPath, "--sig", quoteArg "run()"]
    ++ rpcUrlTokens e rpcUrl
    ++ forgeScriptSigner e privateKey sender broadcast
    ++ boolFlag "--broadcast" broadcast
    ++ ["-vvv"]

/-- The `deploy_erc20` handler (src/index.ts:2045-2147); `broadcast`
defaults to true. -/
def deployErc20 (e : Env) (name symbol : String)
    (initialSupply rpcUrl sender privateKey : Option String)
    (broadcast : Option Bool) (markerExists scriptExists : Bool)
    (execOut : ExecOutcome) : ToolResponse × List String :=
  if e.installed then
    let ws := ensureWorkspaceInitialized e markerExists
    let scriptPath := "script/DeployTestERC20.s.sol"
    if scriptExists then
      let envTokens := [envVarToken "TOKEN_NAME" name, envVarToken "TOKEN_SYMBOL" symbol]
        ++ (if truthy initialSupply then [envVarToken "TOKEN_SUPPLY" (strVal initialSupply)] else [])
      let command := joinSp (deployScriptTokens e ws.workspace scriptPath envTokens
        rpcUrl sender privateKey (broadcast.getD true))
      let result := executeCommand execOut
      ({ text :=
          if result.success then
            "ERC20 token deployed successfully using DeployTestERC20.s.sol script:\n"
              ++ result.message
          else "ERC20 token deployment failed: " ++ result.message,
         isError := !result.success }, ws.commands ++ [command])
    else
      (errResp ("ERC20 deployment script does not exist at " ++ ws.workspace
        ++ "/" ++ scriptPath), ws.commands)
  else (notInstalledResp, [])

/-- The `deploy_erc721` handler (src/index.ts:2177-2279); `broadcast`
defaults to true. -/
def deployErc721 (e : Env) (name symbol : String)
    (tokenId rpcUrl sender privateKey : Option String)
    (broadcast : Option Bool) (markerExists scriptExists : Bool)
    (execOut : ExecOutcome) : ToolResponse × List String :=
  if e.installed then
    let ws := ensureWorkspaceInitialized e markerExists
    let scriptPath := "script/DeployERC721.s.sol"
    if scriptExists then
      let envTokens := [envVarToken "NFT_NAME" name, envVarToken "NFT_SYMBOL" symbol]
        ++ (if truthy tokenId then [envVarToken "NFT_TOKEN_ID" (strVal tokenId)] else [])
      let command := joinSp (deployScriptTokens e ws.workspace scriptPath envTokens
        rpcUrl sender privateKey (broadcast.getD true))
      let result := executeCommand execOut
      ({ text :=
          if result.success then
            "ERC721 token deployed successfully using DeployERC721.s.sol script:\n"
              ++ result.message
          else "ERC721 token deployment failed: " ++ result.message,
         isError := !result.success }, ws.commands ++ [command])
    else
      (errResp ("ERC721 deployment script does not exist at " ++ ws.workspace
        ++ "/" ++ scriptPath), ws.commands)
  else (notInstalledResp, [])

/-- The `deploy_erc1155` handler (src/index.ts:2321-2427); `broadcast`
defaults to true. -/
def deployErc1155 (e : Env) (name symbol : String)
    (tokenIds quantities baseUri rpcUrl sender privateKey : Option String)
    (broadcast : Option Bool) (markerExists scriptExists : Bool)
    (execOut : ExecOutcome) : ToolResponse × List String :=
  if e.installed then
    let ws := ensureWorkspaceInitialized e markerExists
    let scriptPath := "script/DeployERC1155.s.sol"
    if scriptExists then
      let envTokens := [envVarToken "ERC1155_NAME" name, envVarToken "ERC1155_SYMBOL" symbol]
        ++ (if truthy baseUri then [envVarToken "ERC1155_BASE_URI" (strVal baseUri)] else [])
        ++ (if truthy tokenIds then [envVarToken "ERC1155_TOKEN_IDS" (strVal tokenIds)] else [])
        ++ (if truthy quantities then [envVarToken "ERC1155_QUANTITIES" (strVal quantities)] else [])
      let command := joinSp (deployScriptTokens e ws.workspace scriptPath envTokens
        rpcUrl sender privateKey (broadcast.getD true))
      let result := executeCommand execOut
      ({ text :=
          if result.success then
            "ERC1155 token deployed successfully using DeployERC1155.s.sol script:\n"
              ++ result.message
          else "ERC1155 token deployment failed: " ++ result.message,
         isError := !result.success }, ws.commands ++ [command])
    else
      (errResp ("ERC1155 deployment script does not exist at " ++ ws.workspace
        ++ "/" ++ scriptPath), ws.commands)
  else (notInstalledResp, [])

/-- The unit enum of `convert_eth_units` (a zod enum at the boundary). -/
inductive EthUnit where
  | wei | gwei | ether
deriving DecidableEq

/-- The string form of a unit. -/
def EthUnit.str : EthUnit → String
  | .wei => "wei"
  | .gwei => "gwei"
  | .ether => "ether"

/-- The `convert_eth_units` handler (src/index.ts:2443-2466); note the
value and source unit are concatenated into a single `<value><fromUnit>`
token. -/
def convertEthUnits (e : Env) (value : String) (fromUnit toUnit : EthUnit)
    (execOut : ExecOutcome) : ToolResponse × List String :=
  if e.installed then
    let command := joinSp [castPath e.homeDir, "to-unit",
      value ++ fromUnit.str, toUnit.str]
    let result := executeCommand execOut
    ({ text :=
        if result.success then
          value ++ " " ++ fromUnit.str ++ " = " ++ jsTrim result.message
            ++ " " ++ toUnit.str
        else "Conversion failed: " ++ result.message,
       isError := !result.success }, [command])
  else (notInstalledResp, [])

/-- Tokens of the command built by `compute_address` (src/index.ts:2494-2502). -/
def computeAddressTokens (e : Env) (deployerAddress : String)
    (nonce rpcUrl : Option String) : List String :=
  [castPath e.homeDir, "compute-address", deployerAddress]
    ++ optFlag "--nonce" nonce
    ++ rpcUrlTokens e rpcUrl

/-- The `compute_address` handler (src/index.ts:2484-2517). -/
def computeAddress (e : Env) (deployerAddress : String)
    (nonce rpcUrl : Option String) (execOut : ExecOutcome) :
    ToolResponse × List String :=
  if e.installed then
    let command := joinSp (computeAddressTokens e deployerAddress nonce rpcUrl)
    let result := executeCommand execOut
    ({ text :=
        if result.success then "Computed contract address: " ++ jsTrim result.message
        else "Error computing contract address: " ++ result.message,
       isError := !result.success }, [command])
  else (notInstalledResp, [])

/-- C1, counterexample.  The claim's first clause says a zero-exit subprocess
always yields `{succeeded: true, output: stdout}`; but on a zero exit with
empty stdout and non-empty stderr, `executeCommand` returns
`{success: false, message: stderr}` (its stderr clause takes priority). -/
theorem C1_counterexample :
    executeCommand (ExecOutcome.ok "" "warning: no output") =
      { success := false, message := "warning: no output" } ∧
    executeCommand (ExecOutcome.ok "" "warning: no output") ≠
      { success := true, message := "" } := by
  constructor
  · decide
  · decide

/-- C1, amended.  When the subprocess exits zero and it is not the case that
stderr is non-empty with stdout empty, the result is `{success, stdout}`;
when it exits zero with non-empty stderr and empty stdout, the result is
`{failure, stderr}`; when launching throws, the result is `{failure, message}`.
The executor is a total function — it never raises. -/
theorem C1_executor_cases (stdout stderr msg : String) :
    (¬ (stderr ≠ "" ∧ stdout = "") →
      executeCommand (ExecOutcome.ok stdout stderr) =
        { success := true, message := stdout }) ∧
    (stderr ≠ "" → stdout = "" →
      executeCommand (ExecOutcome.ok stdout stderr) =
        { success := false, message := stderr }) ∧
    executeCommand (ExecOutcome.err msg) = { success := false, message := msg } := by
  refine ⟨fun h => ?_, fun h1 h2 => ?_, rfl⟩
  · simp only [executeCommand, if_neg h]
  · simp only [executeCommand, if_pos (And.intro h1 h2)]

/-- C1, witness for the amended theorem. -/
theorem C1_executor_cases_witness :
    executeCommand (ExecOutcome.ok "0x1234\n" "") =
      { success := true, message := "0x1234\n" } ∧
    executeCommand (ExecOutcome.ok "" "error: rpc unreachable") =
      { success := false, message := "error: rpc unreachable" } := by
  exact ⟨(C1_executor_cases "0x1234\n" "" "m").1 (by decide),
         (C1_executor_cases "" "error: rpc unreachable" "m").2.1 (by decide) rfl⟩

/-- C2, counterexample.  A present-but-empty string is not URL-shaped and
matches no alias, so the claim says it is returned unchanged; but the
resolver's truthiness test `if (!rpcUrl)` treats it like an absent argument
and returns the default URL instead. -/
theorem C2_counterexample :
    jsStartsWith "" "http" = false ∧
    resolveRpcUrl env0 (some "") = "http://localhost:8545" ∧
    resolveRpcUrl env0 (some "") ≠ "" := by
  refine ⟨by decide, by decide, by decide⟩

/-- C2, amended.  Absent input resolves to the `RPC_URL` environment default,
falling back to `http://localhost:8545`; a present-but-EMPTY string is treated
like an absent one (JavaScript truthiness) and also resolves to the default;
an input starting with `"http"` is returned unchanged; any other non-empty
input is looked up as an alias in the `[rpc_endpoints]` section of the config
file, returning the matched value on a match and the input unchanged when
there is no match or the config file cannot be read.  The resolver is a total
function — it never fails the call. -/
theorem C2_resolver (e : Env) (u v content : String) :
    (e.envRpcUrl = none → resolveRpcUrl e none = "http://localhost:8545") ∧
    (∀ s, e.envRpcUrl = some s → s ≠ "" → resolveRpcUrl e none = s) ∧
    (resolveRpcUrl e (some "") = DEFAULT_RPC_URL e) ∧
    (jsStartsWith u "http" = true → resolveRpcUrl e (some u) = u) ∧
    (u ≠ "" → jsStartsWith u "http" = false → e.config = some content →
      rpcEndpointLookup content u = some v → resolveRpcUrl e (some u) = v) ∧
    (u ≠ "" → jsStartsWith u "http" = false →
      e.config.bind (fun c => rpcEndpointLookup c u) = none →
      resolveRpcUrl e (some u) = u) := by
  refine ⟨fun h => ?_, fun s hs hne => ?_, ?_, fun hw => ?_,
    fun hne hw hc hl => ?_, fun hne hw hl => ?_⟩
  · simp [resolveRpcUrl, truthy, DEFAULT_RPC_URL, h]
  · simp [resolveRpcUrl, truthy, DEFAULT_RPC_URL, hs, strVal, hne]
  · simp [resolveRpcUrl, truthy]
  · have hne := jsStartsWith_http_ne_empty hw
    simp [resolveRpcUrl, truthy, strVal, hne, hw]
  · simp [resolveRpcUrl, truthy, strVal, hne, hw, hc, hl]
  · cases hc : e.config with
    | none => simp [resolveRpcUrl, truthy, strVal, hne, hw, hc]
    | some c =>
        rw [hc] at hl
        simp at hl
        simp [resolveRpcUrl, truthy, strVal, hne, hw, hc, hl]

/-- C2, witness for the amended theorem: the four resolver behaviors at
concrete inputs. -/
theorem C2_resolver_witness :
    resolveRpcUrl env0 none = "http://localhost:8545" ∧
    resolveRpcUrl envCfg (some "mainnet") = "https://eth.example/rpc" ∧
    resolveRpcUrl env0 (some "mainnet") = "mainnet" ∧
    resolveRpcUrl env0 (some "https://rpc.example") = "https://rpc.example" := by
  refine ⟨(C2_resolver env0 "" "" "").1 rfl,
    (C2_resolver envCfg "mainnet" "https://eth.example/rpc" cfgSample).2.2.2.2.1
      (by decide) (by decide) rfl (by decide),
    (C2_resolver env0 "mainnet" "" "").2.2.2.2.2 (by decide) (by decide) rfl,
    (C2_resolver env0 "https://rpc.example" "" "").2.2.2.1 (by decide)⟩

/-- C3, counterexample.  `anvil_stop` performs no toolchain check: with the
toolchain missing (the `forge --version` probe failing) and no anvil process
detected, it still issues the process-table scan subprocess and returns an
error text that does not contain the fixed advisory message. -/
theorem C3_counterexample :
    env0.installed = false ∧
    anvilStop env0 (ExecOutcome.err "grep: no match") (ExecOutcome.ok "" "")
        (ExecOutcome.err "grep: no match") =
      (errResp "No Anvil instance is currently running.", [ANVIL_PS_CMD]) ∧
    jsIncludes "No Anvil instance is currently running."
      FOUNDRY_NOT_INSTALLED_ERROR = false ∧
    [ANVIL_PS_CMD] ≠ ([] : List String) := by
  refine ⟨rfl, by decide, by decide, by decide⟩

/-- C3, amended.  Every exposed operation except `anvil_stop` and
`anvil_status` performs the toolchain check first: when the check reports
the Foundry binaries unavailable, each of those seventeen operations returns
the error result carrying the fixed advisory message and issues no further
subprocess call.  (`anvil_stop` and `anvil_status` perform no toolchain
check at all — see the counterexample.) -/
theorem C3_check_first (e : Env) (h : e.installed = false) :
    (∀ ca fs args rpc bn fr out,
      castCall e ca fs args rpc bn fr out = (notInstalledResp, [])) ∧
    (∀ ca fs args fr pk v rpc gl gp cf out,
      castSend e ca fs args fr pk v rpc gl gp cf out = (notInstalledResp, [])) ∧
    (∀ a rpc bn fe out, castBalance e a rpc bn fe out = (notInstalledResp, [])) ∧
    (∀ tx rpc cf fd out, castReceipt e tx rpc cf fd out = (notInstalledResp, [])) ∧
    (∀ a s rpc bn out, castStorage e a s rpc bn out = (notInstalledResp, [])) ∧
    (∀ tx rpc q d ls out, castRun e tx rpc q d ls out = (notInstalledResp, [])) ∧
    (∀ sg tp a fb tb rpc out,
      castLogs e sg tp a fb tb rpc out = (notInstalledResp, [])) ∧
    (∀ sg ie out, castSig e sg ie out = (notInstalledResp, [])) ∧
    (∀ sl ie out, castFourByte e sl ie out = (notInstalledResp, [])) ∧
    (∀ rpc ri out, castChain e rpc ri out = (notInstalledResp, [])) ∧
    (∀ p bt fu fbn ac mn ps se pid ps2,
      anvilStart e p bt fu fbn ac mn ps se pid ps2 = (notInstalledResp, [])) ∧
    (∀ sp sg rpc sd pk bc vf me se out,
      forgeScript e sp sg rpc sd pk bc vf me se out = (notInstalledResp, [])) ∧
    (∀ n s i rpc sd pk bc me se out,
      deployErc20 e n s i rpc sd pk bc me se out = (notInstalledResp, [])) ∧
    (∀ n s t rpc sd pk bc me se out,
      deployErc721 e n s t rpc sd pk bc me se out = (notInstalledResp, [])) ∧
    (∀ n s ti qs bu rpc sd pk bc me se out,
      deployErc1155 e n s ti qs bu rpc sd pk bc me se out = (notInstalledResp, [])) ∧
    (∀ v fu tu out, convertEthUnits e v fu tu out = (notInstalledResp, [])) ∧
    (∀ da nn rpc out, computeAddress e da nn rpc out = (notInstalledResp, [])) := by
  refine ⟨?_, ?_, ?_, ?_, ?_, ?_, ?_, ?_, ?_, ?_, ?_, ?_, ?_, ?_, ?_, ?_, ?_⟩ <;>
    intros <;>
    simp [castCall, castSend, castBalance, castReceipt, castStorage, castRun,
      castLogs, castSig, castFourByte, castChain, anvilStart, forgeScript,
      deployErc20, deployErc721, deployErc1155, convertEthUnits, computeAddress, h]

/-- C3, witness for the amended theorem: `cast_chain` with the toolchain
missing short-circuits with the advisory error and an empty trace. -/
theorem C3_check_first_witness :
    castChain env0 none none (ExecOutcome.ok "mainnet\n" "") =
      (notInstalledResp, []) := by
  exact (C3_check_first env0 rfl).2.2.2.2.2.2.2.2.2.1 none none
    (ExecOutcome.ok "mainnet\n" "")

/-- C4: `anvil_start` (toolchain present, launch not throwing).  When the
process-table scan already detects a running node, the handler returns an
error and its trace is the scan alone — no launch command is spawned.
Otherwise it spawns the anvil launch command in the background, re-queries
the process table after the fixed 1000 ms grace period (the sleep itself has
no observable effect in this embedding beyond the ordering), and reports
success exactly when the node is then detected running. -/
theorem C4_anvil_start (e : Env) (port blockTime : Option Nat)
    (forkUrl : Option String) (forkBlockNumber accounts : Option Nat)
    (mnemonic : Option String) (psBefore psAfter : ExecOutcome) (childPid : String)
    (hinst : e.installed = true) :
    ((getAnvilInfo psBefore).running = true →
      (anvilStart e port blockTime forkUrl forkBlockNumber accounts mnemonic
          psBefore none childPid psAfter).1.isError = true ∧
      (anvilStart e port blockTime forkUrl forkBlockNumber accounts mnemonic
          psBefore none childPid psAfter).2 = [ANVIL_PS_CMD]) ∧
    ((getAnvilInfo psBefore).running = false →
      (anvilStart e port blockTime forkUrl forkBlockNumber accounts mnemonic
          psBefore none childPid psAfter).2 =
        [ANVIL_PS_CMD,
         joinSp (anvilStartTokens e (port.getD 8545) blockTime forkUrl
           forkBlockNumber accounts mnemonic),
         ANVIL_PS_CMD] ∧
      ((anvilStart e port blockTime forkUrl forkBlockNumber accounts mnemonic
          psBefore none childPid psAfter).1.isError = false ↔
        (getAnvilInfo psAfter).running = true)) := by
  constructor
  · intro hrun
    constructor <;> simp [anvilStart, hinst, hrun, errResp]
  · intro hrun
    constructor
    · by_cases hA : (getAnvilInfo psAfter).running <;>
        simp [anvilStart, hinst, hrun, hA]
    · by_cases hA : (getAnvilInfo psAfter).running <;>
        simp [anvilStart, hinst, hrun, hA, okResp, errResp]

/-- C4, witness: starting with no node detected spawns the launch command,
re-queries, and reports success because the node is then detected. -/
theorem C4_anvil_start_witness :
    (anvilStart envOk (some 9545) none none none none none
        (ExecOutcome.err "grep: no match") none "4242"
        (ExecOutcome.ok "user 123 anvil --port 9545\n" "")).2 =
      [ANVIL_PS_CMD,
       joinSp (anvilStartTokens envOk 9545 none none none none none),
       ANVIL_PS_CMD] ∧
    ((anvilStart envOk (some 9545) none none none none none
        (ExecOutcome.err "grep: no match") none "4242"
        (ExecOutcome.ok "user 123 anvil --port 9545\n" "")).1.isError = false ↔
      (getAnvilInfo (ExecOutcome.ok "user 123 anvil --port 9545\n" "")).running = true) := by
  exact (C4_anvil_start envOk (some 9545) none none none none none
    (ExecOutcome.err "grep: no match")
    (ExecOutcome.ok "user 123 anvil --port 9545\n" "") "4242" rfl).2 (by decide)

/-- C5: `anvil_stop`.  When no node process is detected, the handler returns
an error and its trace is the process-table scan alone — no kill command is
invoked.  When one is detected (and the kill command's promise resolves), it
issues the platform-appropriate kill-by-name command, re-queries the process
table after the fixed 500 ms grace period, and reports failure exactly when
the process is still detected. -/
theorem C5_anvil_stop (e : Env) (psBefore killOut psAfter : ExecOutcome) :
    ((getAnvilInfo psBefore).running = false →
      anvilStop e psBefore killOut psAfter =
        (errResp "No Anvil instance is currently running.", [ANVIL_PS_CMD])) ∧
    (∀ so se, (getAnvilInfo psBefore).running = true →
      (anvilStop e psBefore (ExecOutcome.ok so se) psAfter).2 =
        [ANVIL_PS_CMD, anvilStopKillCmd e, ANVIL_PS_CMD] ∧
      ((getAnvilInfo psAfter).running = true →
        (anvilStop e psBefore (ExecOutcome.ok so se) psAfter).1 =
          errResp "Failed to stop Anvil. It may still be running.") ∧
      ((getAnvilInfo psAfter).running = false →
        (anvilStop e psBefore (ExecOutcome.ok so se) psAfter).1 =
          okResp "Anvil has been stopped successfully.")) ∧
    (e.platform = "win32" → anvilStopKillCmd e = "taskkill /F /IM anvil.exe") ∧
    (e.platform ≠ "win32" → anvilStopKillCmd e = "pkill -f anvil") := by
  refine ⟨fun hrun => ?_, fun so se hrun => ?_, fun hp => ?_, fun hp => ?_⟩
  · simp [anvilStop, hrun]
  · refine ⟨?_, fun hA => ?_, fun hA => ?_⟩
    · by_cases hA : (getAnvilInfo psAfter).running <;> simp [anvilStop, hrun, hA]
    · simp [anvilStop, hrun, hA]
    · simp [anvilStop, hrun, hA]
  · simp [anvilStopKillCmd, hp]
  · simp [anvilStopKillCmd, hp]

/-- C5, witness: stopping with no node detected, and the non-Windows kill
command choice. -/
theorem C5_anvil_stop_witness :
    anvilStop env0 (ExecOutcome.ok "" "") (ExecOutcome.ok "" "")
        (ExecOutcome.ok "" "") =
      (errResp "No Anvil instance is currently running.", [ANVIL_PS_CMD]) ∧
    anvilStopKillCmd env0 = "pkill -f anvil" := by
  exact ⟨(C5_anvil_stop env0 (ExecOutcome.ok "" "") (ExecOutcome.ok "" "")
      (ExecOutcome.ok "" "")).1 (by decide),
    (C5_anvil_stop env0 (ExecOutcome.ok "" "") (ExecOutcome.ok "" "")
      (ExecOutcome.ok "" "")).2.2.2 (by decide)⟩

/-- A quoted token starts with a double quote, so it never equals a token
that does not start with one. -/
theorem quoteArg_ne (s t : String) (h : t.data.head? ≠ some '"') :
    quoteArg s ≠ t := by
  intro he
  apply h
  rw [← he]
  show (quoteArg s).data.head? = some '"'
  simp [quoteArg, String.data_append]

/-- The cast binary path is the home directory plus 18 characters. -/
theorem castPath_length (homeDir : String) :
    (castPath homeDir).length = homeDir.length + 18 := by
  have h1 : ("/.foundry/bin" : String).length = 13 := rfl
  have h2 : ("/cast" : String).length = 5 := rfl
  simp [castPath, FOUNDRY_BIN, String.length_append, h1, h2]

/-- The cast binary path never equals a short flag token. -/
theorem castPath_ne_short (homeDir t : String) (h : t.length < 18) :
    castPath homeDir ≠ t := by
  intro he
  have hl := congrArg String.length he
  rw [castPath_length] at hl
  omega

/-- A `Nat.toDigitsCore` call only ever extends its accumulator. -/
theorem toDigitsCore_length_le (b : Nat) :
    ∀ (fuel n : Nat) (ds : List Char),
      ds.length ≤ (Nat.toDigitsCore b fuel n ds).length := by
  intro fuel
  induction fuel with
  | zero => intro n ds; simp [Nat.toDigitsCore]
  | succ f ih =>
    intro n ds
    simp only [Nat.toDigitsCore]
    split
    · exact Nat.le_succ _
    · calc ds.length ≤ ((n % b).digitChar :: ds).length := by simp
        _ ≤ _ := ih _ _

/-- The decimal rendering of a natural number is never the empty string
(so a numeric flag value is never empty). -/
theorem natToString_ne_empty (n : Nat) : toString n ≠ "" := by
  show Nat.repr n ≠ ""
  intro h
  have hd : Nat.toDigits 10 n = [] := by
    have := congrArg String.data h
    simpa [Nat.repr, List.asString] using this
  rw [Nat.toDigits] at hd
  revert hd
  simp only [Nat.toDigitsCore]
  split
  · simp
  · intro hd
    have hle := toDigitsCore_length_le 10 n (n / 10) [Nat.digitChar (n % 10)]
    rw [hd] at hle
    simp at hle

/-- A quoted token is never the empty string. -/
theorem quoteArg_ne_empty (s : String) : quoteArg s ≠ "" :=
  quoteArg_ne s "" (by decide)

set_option maxRecDepth 8192 in
/-- C6, counterexample.  The claim fails in several places.  Its own example
requires no `--rpc-url` flag when `rpcUrl` is unset, but `cast_call` with
every optional argument unset resolves the URL to the default and emits
`--rpc-url "http://localhost:8545"`.  The defaulted optional arguments are
also emitted when unset: `anvil_start` with `port` unset launches with
`--port 8545`, `forge_script` with `sig` unset emits `--sig "run()"`, and
`deploy_erc20` with `broadcast` unset emits `--broadcast`.  Finally, an
empty-string element of `cast_run`'s label array yields a `--label` flag
with an empty value. -/
theorem C6_counterexample :
    "--rpc-url" ∈ castCallTokens env0 "0xabc" "totalSupply()" [] none none none ∧
    joinSp (castCallTokens env0 "0xabc" "totalSupply()" [] none none none) =
      "/home/user/.foundry/bin/cast call 0xabc \"totalSupply()\" --rpc-url \"http://localhost:8545\"" ∧
    (anvilStart envOk none none none none none none (ExecOutcome.err "no proc")
        none "7" (ExecOutcome.err "no proc")).2 =
      [ANVIL_PS_CMD, "/home/user/.foundry/bin/anvil --port 8545", ANVIL_PS_CMD] ∧
    (forgeScript envOk "script/Deploy.s.sol" none none none none none none
        true true (ExecOutcome.ok "ok" "")).2 =
      ["cd /home/user/foundry-mcp-server/workspace && /home/user/.foundry/bin/forge script script/Deploy.s.sol --sig \"run()\" --rpc-url \"http://localhost:8545\" -vvv"] ∧
    (deployErc20 envOk "T" "S" none none none none none true true
        (ExecOutcome.ok "ok" "")).2 =
      ["cd /home/user/foundry-mcp-server/workspace && TOKEN_NAME=\"T\" TOKEN_SYMBOL=\"S\" /home/user/.foundry/bin/forge script script/DeployTestERC20.s.sol --sig \"run()\" --rpc-url \"http://localhost:8545\" --broadcast -vvv"] ∧
    castRunTokens envOk "0xtxhash" "http://localhost:8545" false false [""] =
      ["/home/user/.foundry/bin/cast", "run", "0xtxhash", "--rpc-url",
       "\"http://localhost:8545\"", "--label", ""] := by
  refine ⟨by decide, by decide, by decide, by decide, by decide, by decide⟩

/-- C6, amended.  In every command-builder operation, an optional argument
guarded by a presence test (JavaScript truthiness or `!== undefined`)
contributes no tokens when unset — with every guarded optional unset, each
builder's token list is exactly its base command plus the always-emitted
parts — and a guarded flag is never emitted with an empty value (truthy
guards reject empty strings; numeric values are non-empty decimal numerals;
quoted values are non-empty).  The exceptions, each exhibited in the
counterexample, are the defaulted optional arguments, which are emitted even
when unset: `rpcUrl` is resolved (environment default, falling back to
`http://localhost:8545`) and the never-empty resolved URL makes `--rpc-url`
always emitted (unconditionally so by `cast_chain`); `anvil_start` emits
`--port 8545` when `port` is unset; `forge_script` emits `--sig "run()"`
when `sig` is unset; the deploy tools emit `--broadcast` when `broadcast` is
unset (its default is true).  `cast_run`'s array-typed labels are emitted
unguarded, so an empty-string element yields `--label` with an empty
value. -/
theorem C6_optional_flags (e : Env) :
    (∀ flag v, truthy v = false → optFlag flag v = []) ∧
    (∀ flag v, truthy v = false → optFlagQ flag v = []) ∧
    (∀ flag, optNatFlag flag none = [] ∧ optNatFlag flag (some 0) = []) ∧
    (∀ flag, optNatFlagDefined flag none = []) ∧
    (∀ flag, boolFlag flag false = []) ∧
    (∀ flag v, truthy v = true →
      optFlag flag v = [flag, strVal v] ∧ strVal v ≠ "") ∧
    (∀ flag v, truthy v = true →
      optFlagQ flag v = [flag, quoteArg (strVal v)] ∧ quoteArg (strVal v) ≠ "") ∧
    (∀ flag nn, nn ≠ 0 →
      optNatFlag flag (some nn) = [flag, toString nn] ∧ toString nn ≠ "") ∧
    (∀ flag nn,
      optNatFlagDefined flag (some nn) = [flag, toString nn] ∧ toString nn ≠ "") ∧
    (∀ rpc, rpcUrlTokens e rpc = ["--rpc-url", quoteArg (resolveRpcUrl e rpc)]) ∧
    (∀ ca fs args rpc, castCallTokens e ca fs args rpc none none =
      [castPath e.homeDir, "call", ca, quoteArg fs] ++ args ++ rpcUrlTokens e rpc) ∧
    (∀ ca fs args rpc pk, pk ≠ "" →
      castSendTokens e ca fs args none (some pk) none rpc none none none =
        some ([castPath e.homeDir, "send", ca, quoteArg fs] ++ args
          ++ ["--private-key", pk] ++ rpcUrlTokens e rpc)) ∧
    (∀ a rpc, castBalanceTokens e a rpc none false =
      [castPath e.homeDir, "balance", a] ++ rpcUrlTokens e rpc) ∧
    (∀ tx rpc, castReceiptTokens e tx rpc none none =
      [castPath e.homeDir, "receipt", tx] ++ rpcUrlTokens e rpc) ∧
    (∀ a s rpc, castStorageTokens e a s rpc none =
      [castPath e.homeDir, "storage", a, s] ++ rpcUrlTokens e rpc) ∧
    (∀ tx rpc, castRunTokens e tx rpc false false [] =
      [castPath e.homeDir, "run", tx] ++ rpcUrlTokens e (some rpc)) ∧
    (∀ sg topics rpc, castLogsTokens e sg topics none none none rpc =
      [castPath e.homeDir, "logs", quoteArg sg] ++ topics ++ rpcUrlTokens e rpc) ∧
    (∀ rpc ri, castChainTokens e rpc ri =
      [castPath e.homeDir, if ri then "chain-id" else "chain",
       "--rpc-url", quoteArg (resolveRpcUrl e rpc)]) ∧
    (∀ da rpc, computeAddressTokens e da none rpc =
      [castPath e.homeDir, "compute-address", da] ++ rpcUrlTokens e rpc) ∧
    (anvilStartTokens e 8545 none none none none none =
      [anvilPath e.homeDir, "--port", toString 8545]) ∧
    (∀ ps pid psA, e.installed = true → (getAnvilInfo ps).running = false →
      (anvilStart e none none none none none none ps none pid psA).2 =
        [ANVIL_PS_CMD,
         joinSp (anvilStartTokens e 8545 none none none none none),
         ANVIL_PS_CMD]) ∧
    (∀ ws sp rpc, forgeScriptTokens e ws sp "run()" rpc none none false false =
      ["cd", ws, "&&", forgePath e.homeDir, "script", sp, "--sig", quoteArg "run()"]
        ++ rpcUrlTokens e rpc ++ ["-vvv"]) ∧
    (∀ sp rpc me out, e.installed = true →
      (forgeScript e sp none rpc none none none none me true out).2 =
        (ensureWorkspaceInitialized e me).commands
          ++ [joinSp (forgeScriptTokens e (FOUNDRY_WORKSPACE e.homeDir) sp
              "run()" rpc none none false false)]) ∧
    (∀ ws sp envT rpc, truthy e.envPrivateKey = false →
      deployScriptTokens e ws sp envT rpc none none true =
      ["cd", ws, "&&"] ++ envT
        ++ [forgePath e.homeDir, "script", sp, "--sig", quoteArg "run()"]
        ++ rpcUrlTokens e rpc ++ ["--broadcast", "-vvv"]) ∧
    (∀ n sym me out, e.installed = true → truthy e.envPrivateKey = false →
      (deployErc20 e n sym none none none none none me true out).2 =
        (ensureWorkspaceInitialized e me).commands
          ++ [joinSp (["cd", FOUNDRY_WORKSPACE e.homeDir, "&&"]
              ++ [envVarToken "TOKEN_NAME" n, envVarToken "TOKEN_SYMBOL" sym]
              ++ [forgePath e.homeDir, "script", "script/DeployTestERC20.s.sol",
                  "--sig", quoteArg "run()"]
              ++ rpcUrlTokens e none ++ ["--broadcast", "-vvv"])]) ∧
    (∀ n sym me out, e.installed = true → truthy e.envPrivateKey = false →
      (deployErc721 e n sym none none none none none me true out).2 =
        (ensureWorkspaceInitialized e me).commands
          ++ [joinSp (["cd", FOUNDRY_WORKSPACE e.homeDir, "&&"]
              ++ [envVarToken "NFT_NAME" n, envVarToken "NFT_SYMBOL" sym]
              ++ [forgePath e.homeDir, "script", "script/DeployERC721.s.sol",
                  "--sig", quoteArg "run()"]
              ++ rpcUrlTokens e none ++ ["--broadcast", "-vvv"])]) ∧
    (∀ n sym me out, e.installed = true → truthy e.envPrivateKey = false →
      (deployErc1155 e n sym none none none none none none none me true out).2 =
        (ensureWorkspaceInitialized e me).commands
          ++ [joinSp (["cd", FOUNDRY_WORKSPACE e.homeDir, "&&"]
              ++ [envVarToken "ERC1155_NAME" n, envVarToken "ERC1155_SYMBOL" sym]
              ++ [forgePath e.homeDir, "script", "script/DeployERC1155.s.sol",
                  "--sig", quoteArg "run()"]
              ++ rpcUrlTokens e none ++ ["--broadcast", "-vvv"])]) ∧
    (∀ tx rpc l, castRunTokens e tx rpc false false [l] =
      [castPath e.homeDir, "run", tx] ++ rpcUrlTokens e (some rpc)
        ++ ["--label", l]) := by
  have hb : ∀ rpc, rpcUrlTokens e rpc =
      ["--rpc-url", quoteArg (resolveRpcUrl e rpc)] := by
    intro rpc
    simp [rpcUrlTokens, resolveRpcUrl_ne_empty e rpc]
  refine ⟨fun flag v h => by simp [optFlag, h],
    fun flag v h => by simp [optFlagQ, h],
    fun flag => ⟨rfl, rfl⟩,
    fun flag => rfl,
    fun flag => rfl,
    fun flag v h => ⟨by simp [optFlag, h], ?_⟩,
    fun flag v h => ⟨by simp [optFlagQ, h], quoteArg_ne_empty _⟩,
    fun flag nn h => ⟨by simp [optNatFlag, h], natToString_ne_empty nn⟩,
    fun flag nn => ⟨rfl, natToString_ne_empty nn⟩,
    hb,
    fun ca fs args rpc => by simp [castCallTokens, optFlag, truthy],
    fun ca fs args rpc pk hpk => ?_,
    fun a rpc => by simp [castBalanceTokens, optFlag, boolFlag, truthy],
    fun tx rpc => by simp [castReceiptTokens, optNatFlag, optFlag, truthy],
    fun a s rpc => by simp [castStorageTokens, optFlag, truthy],
    fun tx rpc => by simp [castRunTokens, boolFlag],
    fun sg topics rpc => by simp [castLogsTokens, optFlag, truthy],
    fun rpc ri => by simp [castChainTokens],
    fun da rpc => by simp [computeAddressTokens, optFlag, truthy],
    by simp [anvilStartTokens, optNatFlagDefined, optFlagQ, truthy],
    fun ps pid psA hinst hrun => ?_,
    fun ws sp rpc => by
      simp [forgeScriptTokens, forgeScriptSigner, boolFlag, truthy],
    fun sp rpc me out hinst => by
      simp [forgeScript, hinst, ensureWorkspaceInitialized],
    fun ws sp envT rpc henv => by
      simp [deployScriptTokens, forgeScriptSigner, boolFlag, henv,
        show truthy (none : Option String) = false from rfl],
    fun n sym me out hinst henv => by
      simp [deployErc20, deployScriptTokens, forgeScriptSigner, boolFlag,
        hinst, henv, show truthy (none : Option String) = false from rfl,
        ensureWorkspaceInitialized],
    fun n sym me out hinst henv => by
      simp [deployErc721, deployScriptTokens, forgeScriptSigner, boolFlag,
        hinst, henv, show truthy (none : Option String) = false from rfl,
        ensureWorkspaceInitialized],
    fun n sym me out hinst henv => by
      simp [deployErc1155, deployScriptTokens, forgeScriptSigner, boolFlag,
        hinst, henv, show truthy (none : Option String) = false from rfl,
        ensureWorkspaceInitialized],
    fun tx rpc l => by simp [castRunTokens, boolFlag]⟩
  · cases v with
    | none => simp [truthy] at h
    | some s =>
        simp only [truthy, bne_iff_ne, ne_eq] at h
        simpa [strVal] using h
  · have hsig : castSendSigner e (some pk) none = some ["--private-key", pk] := by
      simp [castSendSigner, truthy, strVal, hpk]
    simp [castSendTokens, hsig, optFlag, optNatFlag, truthy]
  · by_cases hA : (getAnvilInfo psA).running <;>
      simp [anvilStart, hinst, hrun, hA]

/-- C6, witness for the amended theorem: the guarded optionals of
`cast_call` and `cast_send` left unset contribute nothing, `anvil_start`
with `port` unset launches with the default port, and `forge_script` with
`sig` unset emits the default signature. -/
theorem C6_optional_flags_witness :
    castCallTokens envOk "0xabc" "totalSupply()" [] none none none =
      [castPath "/home/user", "call", "0xabc", quoteArg "totalSupply()"]
        ++ [] ++ rpcUrlTokens envOk none ∧
    castSendTokens envOk "0xabc" "f()" [] none (some "0xkey") none none
        none none none =
      some ([castPath "/home/user", "send", "0xabc", quoteArg "f()"] ++ []
        ++ ["--private-key", "0xkey"] ++ rpcUrlTokens envOk none) ∧
    (anvilStart envOk none none none none none none (ExecOutcome.err "np")
        none "7" (ExecOutcome.err "np")).2 =
      [ANVIL_PS_CMD,
       joinSp (anvilStartTokens envOk 8545 none none none none none),
       ANVIL_PS_CMD] ∧
    (forgeScript envOk "script/D.s.sol" none none none none none none true true
        (ExecOutcome.ok "" "")).2 =
      (ensureWorkspaceInitialized envOk true).commands
        ++ [joinSp (forgeScriptTokens envOk (FOUNDRY_WORKSPACE "/home/user")
            "script/D.s.sol" "run()" none none none false false)] := by
  have h := C6_optional_flags envOk
  exact ⟨h.2.2.2.2.2.2.2.2.2.2.1 "0xabc" "totalSupply()" [] none,
    h.2.2.2.2.2.2.2.2.2.2.2.1 "0xabc" "f()" [] none "0xkey" (by decide),
    h.2.2.2.2.2.2.2.2.2.2.2.2.2.2.2.2.2.2.2.2.1 (ExecOutcome.err "np") "7"
      (ExecOutcome.err "np") rfl (by decide),
    h.2.2.2.2.2.2.2.2.2.2.2.2.2.2.2.2.2.2.2.2.2.2.1 "script/D.s.sol" none true
      (ExecOutcome.ok "" "") rfl⟩

/-- C7: `cast_balance` with an address, no RPC URL argument, no `RPC_URL`
environment default, and `formatEther` unset.  The resolver yields exactly
`http://localhost:8545`; the built command queries the balance of the address
against that URL; on subprocess success (the claim's scenario: stdout or an
empty stderr) the result text embeds the trimmed stdout as
`Balance of <address>: <value> wei` (the final ` ++ " " ++ "wei"` is the
string ` wei`). -/
theorem C7_balance_default (e : Env) (address stdout stderr : String)
    (hinst : e.installed = true) (henv : e.envRpcUrl = none)
    (hok : ¬(stderr ≠ "" ∧ stdout = "")) :
    resolveRpcUrl e none = "http://localhost:8545" ∧
    castBalanceTokens e address none none false =
      [castPath e.homeDir, "balance", address,
       "--rpc-url", quoteArg "http://localhost:8545"] ∧
    castBalance e address none none none (ExecOutcome.ok stdout stderr) =
      (okResp ("Balance of " ++ address ++ ": " ++ jsTrim stdout ++ " " ++ "wei"),
       [joinSp (castBalanceTokens e address none none false)]) := by
  have h1 : resolveRpcUrl e none = "http://localhost:8545" := by
    simp [resolveRpcUrl, truthy, DEFAULT_RPC_URL, henv]
  refine ⟨h1, ?_, ?_⟩
  · simp [castBalanceTokens, rpcUrlTokens, optFlag, boolFlag, truthy, h1]
  · simp [castBalance, hinst, executeCommand, if_neg hok, okResp]

/-- C7, witness. -/
theorem C7_balance_default_witness :
    castBalance envOk "0xabc" none none none (ExecOutcome.ok "1000000\n" "") =
      (okResp ("Balance of " ++ "0xabc" ++ ": " ++ jsTrim "1000000\n" ++ " " ++ "wei"),
       [joinSp (castBalanceTokens envOk "0xabc" none none false)]) := by
  exact (C7_balance_default envOk "0xabc" "1000000\n" "" rfl rfl (by decide)).2.2

/-- C8: `ensureWorkspaceInitialized` ensures the fixed workspace root exists
(`fs.mkdir` with `recursive: true`, creating it when absent), and runs the
`forge init --no-git` project-initialization command inside the root if and
only if the `foundry.toml` marker is absent; when the marker exists no
initialization command is run. -/
theorem C8_workspace_init (e : Env) (markerExists : Bool) :
    (ensureWorkspaceInitialized e markerExists).dirsEnsured =
      [FOUNDRY_WORKSPACE e.homeDir] ∧
    (ensureWorkspaceInitialized e markerExists).commands =
      (if markerExists then [] else [forgeInitCommand e]) ∧
    forgeInitCommand e =
      "cd " ++ FOUNDRY_WORKSPACE e.homeDir ++ " && " ++ forgePath e.homeDir
        ++ " init --no-git" := by
  exact ⟨rfl, rfl, rfl⟩

/-- C9: `cast_send` with no `privateKey` argument, no (truthy) `PRIVATE_KEY`
environment variable and no `from` argument executes no subprocess and
returns an error result, whatever the other arguments are; when the
toolchain check passes, that error is the fixed no-sender message. -/
theorem C9_send_no_signer (e : Env) (ca fs : String) (args : List String)
    (from_ privateKey value rpcUrl gasLimit gasPrice : Option String)
    (confirmations : Option Nat) (execOut : ExecOutcome)
    (hpk : truthy privateKey = false) (henv : truthy e.envPrivateKey = false)
    (hfr : truthy from_ = false) :
    (castSend e ca fs args from_ privateKey value rpcUrl gasLimit gasPrice
        confirmations execOut).2 = [] ∧
    (castSend e ca fs args from_ privateKey value rpcUrl gasLimit gasPrice
        confirmations execOut).1.isError = true ∧
    (e.installed = true →
      (castSend e ca fs args from_ privateKey value rpcUrl gasLimit gasPrice
          confirmations execOut).1 = errResp NO_SENDER_ERROR) := by
  have hs : castSendSigner e privateKey from_ = none := by
    simp [castSendSigner, hpk, henv, hfr]
  by_cases hi : e.installed
  · refine ⟨?_, ?_, fun _ => ?_⟩ <;>
      simp [castSend, castSendTokens, hs, hi, errResp]
  · simp only [Bool.not_eq_true] at hi
    refine ⟨?_, ?_, fun hc => absurd hc (by simp [hi])⟩ <;>
      simp [castSend, hi, notInstalledResp, errResp]

/-- C9, witness. -/
theorem C9_send_no_signer_witness :
    (castSend envOk "0xc0ffee" "transfer(address,uint256)" ["0xdead", "100"]
        none none none none none none none (ExecOutcome.ok "" "")).1 =
      errResp NO_SENDER_ERROR := by
  exact (C9_send_no_signer envOk "0xc0ffee" "transfer(address,uint256)"
    ["0xdead", "100"] none none none none none none none
    (ExecOutcome.ok "" "") rfl rfl rfl).2.2 rfl

/-- C10: in `cast_send`, with no `privateKey` argument and no (truthy)
`PRIVATE_KEY` environment variable, a supplied non-empty `from` string is
emitted as `--from <from>` exactly when it starts with "0x" and has length
42, and as `--private-key <from>` (treated as a private key) otherwise; the
built command consists of the base tokens, the args, that signing pair, and
the remaining guarded flags. -/
theorem C10_send_from_shape (e : Env) (ca fs : String) (args : List String)
    (value rpcUrl gasLimit gasPrice : Option String) (confirmations : Option Nat)
    (f : String) (henv : truthy e.envPrivateKey = false) (hf : f ≠ "") :
    castSendTokens e ca fs args (some f) none value rpcUrl gasLimit gasPrice
        confirmations =
      some ([castPath e.homeDir, "send", ca, quoteArg fs] ++ args
        ++ (if jsStartsWith f "0x" && f.length == 42
            then ["--from", f] else ["--private-key", f])
        ++ optFlag "--value" value
        ++ rpcUrlTokens e rpcUrl
        ++ optFlag "--gas-limit" gasLimit
        ++ optFlag "--gas-price" gasPrice
        ++ optNatFlag "--confirmations" confirmations) ∧
    ((jsStartsWith f "0x" && f.length == 42) = true →
      castSendSigner e none (some f) = some ["--from", f]) ∧
    ((jsStartsWith f "0x" && f.length == 42) = false →
      castSendSigner e none (some f) = some ["--private-key", f]) := by
  have hsig : castSendSigner e none (some f) =
      some (if jsStartsWith f "0x" && f.length == 42
        then ["--from", f] else ["--private-key", f]) := by
    have htf : truthy (some f) = true := by simp [truthy, hf]
    simp only [castSendSigner, show truthy (none : Option String) = false from rfl,
      henv, htf, Bool.false_eq_true, if_false, if_true, strVal]
  refine ⟨?_, fun hc => ?_, fun hc => ?_⟩
  · simp [castSendTokens, hsig]
  · rw [hsig, hc]; simp
  · rw [hsig, hc]; simp

/-- C10, witness: a 42-character 0x-string goes to `--from`, anything else
to `--private-key`. -/
theorem C10_send_from_shape_witness :
    castSendSigner envOk none
        (some "0x1111111111111111111111111111111111111111") =
      some ["--from", "0x1111111111111111111111111111111111111111"] ∧
    castSendSigner envOk none (some "0xdeadbeef") =
      some ["--private-key", "0xdeadbeef"] := by
  exact ⟨(C10_send_from_shape envOk "c" "f()" [] none none none none none
      "0x1111111111111111111111111111111111111111" rfl (by decide)).2.1 (by decide),
    (C10_send_from_shape envOk "c" "f()" [] none none none none none
      "0xdeadbeef" rfl (by decide)).2.2 (by decide)⟩

end FoundryMcp
